import Mathlib

/-! Verification development for the inference-performance-estimator repository.

The numeric engine (`src/utils/calculations.ts`) is embedded shallowly:
JavaScript numbers are modelled as exact rationals (ℚ), thrown exceptions as
`Except String`, optional architecture fields as `Option ℚ` with JavaScript
falsiness (`undefined` or `0`) made explicit, and `Math.floor` as `Rat.floor`.
String rendering of numbers inside warning messages (`toFixed(1)` and template
interpolation) is modelled by exact rational formatting helpers.
The stack-recommendation eligibility filter (`src/utils/stackRecommendation.ts`)
is embedded over its requirement/component records; the static component
catalog is a data file outside the embedded sources, so the filter is
parametrised by the catalog list it scans. -/

/- Data model, from `src/types/calculator.ts`. -/

structure GPUSpecs where
  name : String
  computeBandwidth : ℚ
  memoryBandwidth : ℚ
  memorySize : ℚ

structure ModelSpecs where
  parameters : ℚ
  sequenceLength : ℚ
  batchSize : ℚ
  promptTokens : ℚ
  outputTokens : ℚ
  quantization : String
  headDimension : Option ℚ
  nLayers : Option ℚ
  nHeads : Option ℚ
  nKvHeads : Option ℚ
  hiddenSize : Option ℚ
  intermediateSize : Option ℚ

structure SystemOverhead where
  systemEfficiencyPercent : ℚ

structure QuantizationInfo where
  name : String
  bytesPerParameter : ℚ
  description : String
  computeMultiplier : ℚ

def QUANTIZATION_OPTIONS : List QuantizationInfo :=
  [ { name := "FP32"
      bytesPerParameter := 4
      description := "32-bit floating point - highest precision, largest size"
      computeMultiplier := 0.5 },
    { name := "FP16"
      bytesPerParameter := 2
      description := "16-bit floating point - good precision/performance balance"
      computeMultiplier := 1.0 },
    { name := "INT8"
      bytesPerParameter := 1
      description := "8-bit integer - smaller size, slight quality loss"
      computeMultiplier := 2.0 },
    { name := "INT4"
      bytesPerParameter := 0.5
      description := "4-bit integer - smallest size, noticeable quality loss"
      computeMultiplier := 4.0 } ]

/-- JavaScript falsiness of an optional numeric field: absent or zero. -/
def isFalsy : Option ℚ → Bool
  | none => true
  | some v => decide (v = 0)

/-- Truthiness, the negation of `isFalsy`. -/
def isTruthy (x : Option ℚ) : Bool := !(isFalsy x)

/-- `getQuantizationInfo`: lookup by name, defaulting to `QUANTIZATION_OPTIONS[1]` (FP16). -/
def getQuantizationInfo (quantization : String) : QuantizationInfo :=
  (QUANTIZATION_OPTIONS.find? (fun q => q.name == quantization)).getD
    (QUANTIZATION_OPTIONS.get ⟨1, by decide⟩)

/-- `calculateModelSizeBytes`: parameters (billions) times bytes per parameter. -/
def calculateModelSizeBytes (model : ModelSpecs) : ℚ :=
  model.parameters * 1e9 * (getQuantizationInfo model.quantization).bytesPerParameter

/-- `calculateOpsToByteRatio`: effective compute FLOPS over memory bytes per second. -/
def calculateOpsToByteRatio (gpu : GPUSpecs) (model : ModelSpecs) : ℚ :=
  let quantInfo := getQuantizationInfo model.quantization
  let effectiveComputeFlops := gpu.computeBandwidth * 1e12 * quantInfo.computeMultiplier
  let memoryBytesPerSecond := gpu.memoryBandwidth * 1e9
  effectiveComputeFlops / memoryBytesPerSecond

/-- `calculateArithmeticIntensity`: attention arithmetic intensity with the 0.1 floor;
errors when `headDimension` is falsy. -/
def calculateArithmeticIntensity (model : ModelSpecs) : Except String ℚ :=
  if isFalsy model.headDimension then
    .error "Model architecture missing: headDimension is required for arithmetic intensity calculation"
  else
    let N := model.sequenceLength
    let d := model.headDimension.getD 0
    let quantInfo := getQuantizationInfo model.quantization
    let totalMemoryMovement := (8 * N * N + 8 * N * d) * quantInfo.bytesPerParameter / 2
    let totalCompute := 4 * N * N * d + 3 * N * N
    let arithmeticIntensity := totalCompute / totalMemoryMovement
    .ok (max 0.1 (arithmeticIntensity * model.batchSize))

/-- `calculatePrefillTime`: compute-bound time to first token, derated by system efficiency. -/
def calculatePrefillTime (gpu : GPUSpecs) (model : ModelSpecs)
    (systemOverhead : Option SystemOverhead) : ℚ :=
  let quantInfo := getQuantizationInfo model.quantization
  let totalFlops := model.promptTokens * (model.parameters * 1e9) * 2
  let effectiveComputeFlops := gpu.computeBandwidth * 1e12 * quantInfo.computeMultiplier
  let baseTime := totalFlops / effectiveComputeFlops * 1000
  let systemEfficiency := ((systemOverhead.map SystemOverhead.systemEfficiencyPercent).getD 100) / 100
  baseTime / systemEfficiency

/-- `calculateTimePerToken`: memory-bound inter-token latency, derated by system efficiency. -/
def calculateTimePerToken (gpu : GPUSpecs) (model : ModelSpecs)
    (systemOverhead : Option SystemOverhead) : ℚ :=
  let modelSizeBytes := calculateModelSizeBytes model
  let memoryBytesPerSecond := gpu.memoryBandwidth * 1e9
  let baseTime := modelSizeBytes / memoryBytesPerSecond * 1000
  let systemEfficiency := ((systemOverhead.map SystemOverhead.systemEfficiencyPercent).getD 100) / 100
  baseTime / systemEfficiency

/-- `calculateTotalGenerationTime`: prefill plus per-token decode time. -/
def calculateTotalGenerationTime (prefillTime timePerToken outputTokens : ℚ) : ℚ :=
  prefillTime + timePerToken * outputTokens

/-- `calculateThroughput`: tokens per second, 0 when total time is 0. -/
def calculateThroughput (totalTime totalTokens : ℚ) : ℚ :=
  if totalTime = 0 then 0 else totalTokens / totalTime * 1000

structure Bottleneck where
  isMemoryBound : Bool
  isComputeBound : Bool

/-- `determineBottleneck`: memory-bound iff intensity is strictly below the hardware ratio. -/
def determineBottleneck (opsToByteRatio arithmeticIntensity : ℚ) : Bottleneck :=
  { isMemoryBound := decide (arithmeticIntensity < opsToByteRatio)
    isComputeBound := decide (arithmeticIntensity ≥ opsToByteRatio) }

/-- `calculateKVCachePerToken` in GB; errors when `nLayers`, `headDimension`, or both
`nKvHeads` and `nHeads` are falsy. -/
def calculateKVCachePerToken (model : ModelSpecs) : Except String ℚ :=
  if isFalsy model.nLayers then
    .error "Model architecture missing: nLayers is required for KV cache calculation"
  else if isFalsy model.headDimension then
    .error "Model architecture missing: headDimension is required for KV cache calculation"
  else if isFalsy model.nKvHeads && isFalsy model.nHeads then
    .error "Model architecture missing: nKvHeads or nHeads is required for KV cache calculation"
  else
    let nLayers := model.nLayers.getD 0
    let dHead := model.headDimension.getD 0
    let nKvHeads := if isTruthy model.nKvHeads then model.nKvHeads.getD 0 else model.nHeads.getD 0
    let quantInfo := getQuantizationInfo model.quantization
    let kvCacheBytesPerToken := 2 * nLayers * nKvHeads * dHead * quantInfo.bytesPerParameter
    .ok (kvCacheBytesPerToken / 1000 ^ 3)

/-- `calculateActivationMemory` in GB; errors when `hiddenSize` or `intermediateSize` is falsy. -/
def calculateActivationMemory (model : ModelSpecs) : Except String ℚ :=
  if isFalsy model.hiddenSize then
    .error "Model architecture missing: hiddenSize is required for activation memory calculation"
  else if isFalsy model.intermediateSize then
    .error "Model architecture missing: intermediateSize is required for activation memory calculation"
  else
    let hiddenSize := model.hiddenSize.getD 0
    let intermediateSize := model.intermediateSize.getD 0
    let sequenceLength := model.promptTokens + model.outputTokens
    let maxNumSequences := model.batchSize
    let activationMemoryBytes := maxNumSequences * sequenceLength * (18 * hiddenSize + 4 * intermediateSize)
    .ok (activationMemoryBytes / 1000 ^ 3)

/-- `calculateSystemOverhead`: fixed 1 GB. -/
def calculateSystemOverhead : ℚ := 1

/-- Model of JavaScript template interpolation of a number into a string. -/
def ratStr (q : ℚ) : String := toString q

/-- Model of JavaScript `toFixed(1)`: round to one decimal (ties up) and print. -/
def toFixed1 (q : ℚ) : String :=
  let n : ℤ := Rat.floor (q * 10 + 1 / 2)
  toString (n / 10) ++ "." ++ toString (n % 10)

structure MemoryFit where
  modelSizeGB : ℚ
  systemOverheadGB : ℚ
  activationMemoryGB : ℚ
  memoryUtilization : ℚ
  hasMemoryWarning : Bool
  memoryWarningMessage : Option String
  kvCachePerTokenGB : ℚ
  freeMemoryForKVCacheGB : ℚ
  maxKVCacheTokens : ℤ
  maxBatchSize : ℤ
  totalMemoryUsedGB : ℚ
  currentKVCacheGB : ℚ

/-- `checkMemoryFit`: memory breakdown, capacity-derived limits and the warning policy.
The warning branch is modelled as a (flag, message) pair computed by the same
three-way `if` chain as the source. -/
def checkMemoryFit (gpu : GPUSpecs) (model : ModelSpecs) : Except String MemoryFit := do
  let modelSizeBytes := calculateModelSizeBytes model
  let modelSizeGB := modelSizeBytes / 1000 ^ 3
  let gpuMemoryGB := gpu.memorySize
  let systemOverheadGB := calculateSystemOverhead
  let activationMemoryGB ← calculateActivationMemory model
  let kvCachePerTokenGB ← calculateKVCachePerToken model
  let currentKVCacheGB := kvCachePerTokenGB * (model.promptTokens + model.outputTokens) * model.batchSize
  let totalMemoryNeeded := modelSizeGB + systemOverheadGB + activationMemoryGB + currentKVCacheGB
  let baseMemoryUsage := modelSizeGB + systemOverheadGB + activationMemoryGB
  let freeMemoryForKVCacheGB := max 0 (gpuMemoryGB - baseMemoryUsage)
  let maxKVCacheTokens : ℤ :=
    if kvCachePerTokenGB > 0 then Rat.floor (freeMemoryForKVCacheGB / kvCachePerTokenGB) else 0
  let actualSequenceLength := model.promptTokens + model.outputTokens
  let maxBatchSize : ℤ :=
    if actualSequenceLength > 0 then Rat.floor ((maxKVCacheTokens : ℚ) / actualSequenceLength) else 0
  let memoryUtilization := totalMemoryNeeded / gpuMemoryGB * 100
  let warn : Bool × Option String :=
    if totalMemoryNeeded > gpuMemoryGB then
      (true, some ("Model requires " ++ toFixed1 totalMemoryNeeded ++ "GB but GPU only has "
        ++ ratStr gpuMemoryGB ++ "GB. Shortfall: " ++ toFixed1 (totalMemoryNeeded - gpuMemoryGB)
        ++ "GB. Consider using a smaller model, better quantization, or a GPU with more memory."))
    else if memoryUtilization > 90 then
      (true, some ("High memory usage (" ++ toFixed1 memoryUtilization
        ++ "%). May cause performance issues or OOM errors. Consider reducing batch size or sequence length."))
    else if memoryUtilization > 80 then
      (true, some ("Moderate memory usage (" ++ toFixed1 memoryUtilization
        ++ "%). Monitor for potential memory pressure."))
    else
      (false, none)
  .ok
    { modelSizeGB := modelSizeGB
      systemOverheadGB := systemOverheadGB
      activationMemoryGB := activationMemoryGB
      memoryUtilization := min memoryUtilization 999
      hasMemoryWarning := warn.1
      memoryWarningMessage := warn.2
      kvCachePerTokenGB := kvCachePerTokenGB
      freeMemoryForKVCacheGB := freeMemoryForKVCacheGB
      maxKVCacheTokens := maxKVCacheTokens
      maxBatchSize := maxBatchSize
      totalMemoryUsedGB := totalMemoryNeeded
      currentKVCacheGB := currentKVCacheGB }

/-- `checkPerformanceWarning`: advisory flag when throughput is below 5 tokens per second. -/
def checkPerformanceWarning (throughput : ℚ) : Bool × Option String :=
  let minAcceptableThroughput : ℚ := 5
  if throughput < minAcceptableThroughput then
    (true, some ("Very low throughput (" ++ toFixed1 throughput
      ++ " token/s). Consider using a more powerful GPU, smaller model, better quantization, or optimizing your setup for better performance."))
  else
    (false, none)

structure CalculationResults where
  opsToByteRatio : ℚ
  arithmeticIntensity : ℚ
  bottleneck : Bottleneck
  prefillTime : ℚ
  timePerToken : ℚ
  totalGenerationTime : ℚ
  throughputTokensPerSecond : ℚ
  memoryCheck : MemoryFit
  hasPerformanceWarning : Bool
  performanceWarningMessage : Option String

/-- Body of the `try` block of `calculatePerformance`: the source spreads the
bottleneck, memory-check and performance-warning fields into one flat record;
here they are kept as nested components of `CalculationResults`. -/
def calculatePerformanceInner (gpu : GPUSpecs) (model : ModelSpecs)
    (systemOverhead : Option SystemOverhead) : Except String CalculationResults := do
  let opsToByteRatio := calculateOpsToByteRatio gpu model
  let arithmeticIntensity ← calculateArithmeticIntensity model
  let bottleneck := determineBottleneck opsToByteRatio arithmeticIntensity
  let memoryCheck ← checkMemoryFit gpu model
  let prefillTime := calculatePrefillTime gpu model systemOverhead
  let timePerToken := calculateTimePerToken gpu model systemOverhead
  let totalGenerationTime := calculateTotalGenerationTime prefillTime timePerToken model.outputTokens
  let totalTokens := model.promptTokens + model.outputTokens
  let throughputTokensPerSecond := calculateThroughput totalGenerationTime totalTokens
  let performanceCheck := checkPerformanceWarning throughputTokensPerSecond
  .ok
    { opsToByteRatio := opsToByteRatio
      arithmeticIntensity := arithmeticIntensity
      bottleneck := bottleneck
      prefillTime := prefillTime
      timePerToken := timePerToken
      totalGenerationTime := totalGenerationTime
      throughputTokensPerSecond := throughputTokensPerSecond
      memoryCheck := memoryCheck
      hasPerformanceWarning := performanceCheck.1
      performanceWarningMessage := performanceCheck.2 }

/-- `calculatePerformance`: the `catch` clause re-wraps any thrown message with
outer context, exactly as the source's `try`/`catch`. -/
def calculatePerformance (gpu : GPUSpecs) (model : ModelSpecs)
    (systemOverhead : Option SystemOverhead) : Except String CalculationResults :=
  match calculatePerformanceInner gpu model systemOverhead with
  | .ok r => .ok r
  | .error errorMessage => .error ("Performance calculation failed: " ++ errorMessage)

/- Stack-recommendation engine, from `src/utils/stackRecommendation.ts` and
`src/types/stackFinder.ts`. Enumerated string-literal types are modelled as
strings; only the fields consulted by the eligibility filter are carried. -/

structure ProjectRequirements where
  projectType : String
  useCase : List String
  programmingLanguages : List String
  scalabilityNeeds : String
  deploymentTarget : List String
  budgetRange : String
  teamSize : String
  timelineWeeks : ℚ
  latencyRequirement : String
  throughputRequirement : String
  dataSize : String
  dataTypes : List String
  complianceRequirements : List String
  securityLevel : String

structure StackComponent where
  id : String
  name : String
  category : String
  supportedLanguages : List String
  supportedUseCases : List String
  scalabilitySupport : List String
  deploymentTargets : List String
  minBudgetRange : String
  latencyProfile : List String
  throughputProfile : List String
  supportedDataTypes : List String
  supportedDataSizes : List String
  complianceSupport : List String
  securityFeatures : List String
deriving DecidableEq

/-- The total budget-tier order used by `isBudgetCompatible`. -/
def budgetOrder : List String := ["minimal", "small", "medium", "large", "enterprise"]

/-- Model of JavaScript `Array.prototype.indexOf`: first index or -1. -/
def jsIndexOf (l : List String) (x : String) : ℤ :=
  match l with
  | [] => -1
  | a :: rest =>
      if a = x then 0 else
        let r := jsIndexOf rest x
        if r = -1 then -1 else r + 1

/-- `isBudgetCompatible`: the component's minimum budget tier must not exceed the
project's budget tier. -/
def isBudgetCompatible (componentBudget projectBudget : String) : Bool :=
  decide (jsIndexOf budgetOrder componentBudget ≤ jsIndexOf budgetOrder projectBudget)

/-- The predicate applied to each catalog entry by `filterComponentsByRequirements`. -/
def eligibleComponent (requirements : ProjectRequirements) (component : StackComponent) : Bool :=
  let languageMatch := requirements.programmingLanguages.any
    (fun lang => component.supportedLanguages.contains lang)
  let useCaseMatch := requirements.useCase.any
    (fun useCase => component.supportedUseCases.contains useCase)
  let scalabilityMatch := component.scalabilitySupport.contains requirements.scalabilityNeeds
  let deploymentMatch := requirements.deploymentTarget.any
    (fun target => component.deploymentTargets.contains target)
  let budgetMatch := isBudgetCompatible component.minBudgetRange requirements.budgetRange
  let dataTypeMatch := requirements.dataTypes.any
    (fun dataType => component.supportedDataTypes.contains dataType)
  let dataSizeMatch := component.supportedDataSizes.contains requirements.dataSize
  let complianceMatch := requirements.complianceRequirements.all
    (fun compliance => component.complianceSupport.contains compliance)
  let securityMatch := component.securityFeatures.contains requirements.securityLevel
  languageMatch && useCaseMatch && scalabilityMatch && deploymentMatch && budgetMatch
    && dataTypeMatch && dataSizeMatch && complianceMatch && securityMatch

/-- `filterComponentsByRequirements`, parametrised by the catalog it scans (the
source closes over the static `STACK_COMPONENTS` array, whose data file is not
among the embedded sources; the filter logic itself is fully embedded). -/
def filterComponentsByRequirements (catalog : List StackComponent)
    (requirements : ProjectRequirements) : List StackComponent :=
  catalog.filter (fun component => eligibleComponent requirements component)

/- Sample concrete inputs used by witnesses (values from the spec's worked example). -/

def sampleGPU : GPUSpecs :=
  { name := "example", computeBandwidth := 1000, memoryBandwidth := 3000, memorySize := 80 }

def sampleModel : ModelSpecs :=
  { parameters := 7, sequenceLength := 4096, batchSize := 1, promptTokens := 350,
    outputTokens := 150, quantization := "FP16", headDimension := some 128, nLayers := some 32,
    nHeads := some 32, nKvHeads := none, hiddenSize := some 4096, intermediateSize := some 11008 }

/-- The thrown message names a field that is indeed missing (falsy) in the model. -/
def namesMissingField (m : ModelSpecs) (inner : String) : Prop :=
  (isFalsy m.headDimension = true ∧
    inner = "Model architecture missing: headDimension is required for arithmetic intensity calculation") ∨
  (isFalsy m.hiddenSize = true ∧
    inner = "Model architecture missing: hiddenSize is required for activation memory calculation") ∨
  (isFalsy m.intermediateSize = true ∧
    inner = "Model architecture missing: intermediateSize is required for activation memory calculation") ∨
  (isFalsy m.nLayers = true ∧
    inner = "Model architecture missing: nLayers is required for KV cache calculation") ∨
  (isFalsy m.nKvHeads = true ∧ isFalsy m.nHeads = true ∧
    inner = "Model architecture missing: nKvHeads or nHeads is required for KV cache calculation")

/-- Whether an `Except` computation succeeded. -/
def isOkE {α : Type} (x : Except String α) : Bool :=
  match x with
  | .ok _ => true
  | .error _ => false

def sampleComponent : StackComponent :=
  { id := "pytorch", name := "PyTorch", category := "ml-framework",
    supportedLanguages := ["python", "cpp"],
    supportedUseCases := ["natural-language-processing", "computer-vision"],
    scalabilitySupport := ["single-machine", "multi-machine", "distributed"],
    deploymentTargets := ["cloud", "on-premise", "edge"],
    minBudgetRange := "minimal",
    latencyProfile := ["near-real-time", "batch", "flexible"],
    throughputProfile := ["medium", "high"],
    supportedDataTypes := ["text", "images", "audio"],
    supportedDataSizes := ["small", "medium", "large"],
    complianceSupport := ["gdpr", "hipaa", "none"],
    securityFeatures := ["basic", "standard", "high"] }

def sampleRequirements : ProjectRequirements :=
  { projectType := "prototype", useCase := ["natural-language-processing"],
    programmingLanguages := ["python"], scalabilityNeeds := "single-machine",
    deploymentTarget := ["cloud"], budgetRange := "small", teamSize := "small-team",
    timelineWeeks := 12, latencyRequirement := "flexible", throughputRequirement := "medium",
    dataSize := "medium", dataTypes := ["text"], complianceRequirements := ["gdpr", "hipaa"],
    securityLevel := "standard" }

/- Facts about the quantization table. -/

lemma getQuantizationInfo_mem (q : String) : getQuantizationInfo q ∈ QUANTIZATION_OPTIONS := by
  unfold getQuantizationInfo
  cases h : QUANTIZATION_OPTIONS.find? (fun o => o.name == q) with
  | none => simpa using List.get_mem QUANTIZATION_OPTIONS 1 (by decide)
  | some v => simpa using List.mem_of_find?_eq_some h

lemma bytesPerParameter_pos (q : String) : 0 < (getQuantizationInfo q).bytesPerParameter := by
  have h := getQuantizationInfo_mem q
  simp only [QUANTIZATION_OPTIONS, List.mem_cons, List.not_mem_nil, or_false] at h
  rcases h with h | h | h | h <;> rw [h] <;> norm_num

lemma computeMultiplier_pos (q : String) : 0 < (getQuantizationInfo q).computeMultiplier := by
  have h := getQuantizationInfo_mem q
  simp only [QUANTIZATION_OPTIONS, List.mem_cons, List.not_mem_nil, or_false] at h
  rcases h with h | h | h | h <;> rw [h] <;> norm_num

/-- Claim C3: `determineBottleneck` sets `isMemoryBound` iff the intensity is strictly
below the ops-to-byte ratio, sets `isComputeBound` iff it is at least the ratio
(equality counts as compute-bound), and exactly one of the two flags holds. -/
theorem determineBottleneck_classification (r a : ℚ) (hr : 0 ≤ r) (ha : 0 ≤ a) :
    ((determineBottleneck r a).isMemoryBound = true ↔ a < r) ∧
    ((determineBottleneck r a).isComputeBound = true ↔ r ≤ a) ∧
    (((determineBottleneck r a).isMemoryBound).xor ((determineBottleneck r a).isComputeBound)
      = true) := by
  by_cases h : a < r
  · simp [determineBottleneck, h, not_le.mpr h]
  · simp [determineBottleneck, h, not_lt.mp h]

/-- Claim C3 witness: at ratio 3 and intensity 2 the classification is memory-bound and
exactly one flag is set. -/
theorem determineBottleneck_classification_witness :
    (0 : ℚ) ≤ 3 ∧ (0 : ℚ) ≤ 2 ∧
    (((determineBottleneck 3 2).isMemoryBound = true ↔ (2 : ℚ) < 3) ∧
      ((determineBottleneck 3 2).isComputeBound = true ↔ (3 : ℚ) ≤ 2) ∧
      (((determineBottleneck 3 2).isMemoryBound).xor ((determineBottleneck 3 2).isComputeBound)
        = true)) :=
  ⟨by norm_num, by norm_num, determineBottleneck_classification 3 2 (by norm_num) (by norm_num)⟩

/-- Claim C7: `calculateThroughput` is 0 when the total time is 0 and otherwise
converts tokens per millisecond to tokens per second. -/
theorem calculateThroughput_zero_guard (totalTime totalTokens : ℚ) :
    calculateThroughput 0 totalTokens = 0 ∧
    calculateThroughput totalTime totalTokens =
      if totalTime = 0 then 0 else totalTokens / totalTime * 1000 :=
  ⟨rfl, rfl⟩

/-- Claim C9: batch size influences none of the latency or throughput outputs — prefill,
per-token, total generation time and throughput agree on any two models differing
only in `batchSize`. -/
theorem batchSize_has_no_latency_effect (gpu : GPUSpecs) (m : ModelSpecs)
    (so : Option SystemOverhead) (b1 b2 : ℚ) :
    calculatePrefillTime gpu { m with batchSize := b1 } so
        = calculatePrefillTime gpu { m with batchSize := b2 } so ∧
    calculateTimePerToken gpu { m with batchSize := b1 } so
        = calculateTimePerToken gpu { m with batchSize := b2 } so ∧
    calculateTotalGenerationTime (calculatePrefillTime gpu { m with batchSize := b1 } so)
        (calculateTimePerToken gpu { m with batchSize := b1 } so)
        ({ m with batchSize := b1 } : ModelSpecs).outputTokens
      = calculateTotalGenerationTime (calculatePrefillTime gpu { m with batchSize := b2 } so)
        (calculateTimePerToken gpu { m with batchSize := b2 } so)
        ({ m with batchSize := b2 } : ModelSpecs).outputTokens ∧
    calculateThroughput
        (calculateTotalGenerationTime (calculatePrefillTime gpu { m with batchSize := b1 } so)
          (calculateTimePerToken gpu { m with batchSize := b1 } so)
          ({ m with batchSize := b1 } : ModelSpecs).outputTokens)
        (({ m with batchSize := b1 } : ModelSpecs).promptTokens
          + ({ m with batchSize := b1 } : ModelSpecs).outputTokens)
      = calculateThroughput
        (calculateTotalGenerationTime (calculatePrefillTime gpu { m with batchSize := b2 } so)
          (calculateTimePerToken gpu { m with batchSize := b2 } so)
          ({ m with batchSize := b2 } : ModelSpecs).outputTokens)
        (({ m with batchSize := b2 } : ModelSpecs).promptTokens
          + ({ m with batchSize := b2 } : ModelSpecs).outputTokens) :=
  ⟨rfl, rfl, rfl, rfl⟩

lemma calculateArithmeticIntensity_ok (m : ModelSpecs) (d : ℚ) (hd : m.headDimension = some d)
    (hdz : d ≠ 0) :
    calculateArithmeticIntensity m =
      .ok (max 0.1 ((4 * m.sequenceLength * m.sequenceLength * d
            + 3 * m.sequenceLength * m.sequenceLength)
          / ((8 * m.sequenceLength * m.sequenceLength + 8 * m.sequenceLength * d)
              * (getQuantizationInfo m.quantization).bytesPerParameter / 2)
          * m.batchSize)) := by
  simp [calculateArithmeticIntensity, isFalsy, hd, hdz]

/-- Claim C4: with a positive sequence length and a present, positive head dimension,
the arithmetic intensity computation succeeds, its value is at least the 0.1 floor,
and it is non-decreasing in the batch size with all other inputs fixed. -/
theorem arithmeticIntensity_floor_and_batch_mono (m : ModelSpecs) (d : ℚ)
    (hd : m.headDimension = some d) (hdpos : 0 < d) (hN : 0 < m.sequenceLength)
    (b1 b2 : ℚ) (hb : b1 ≤ b2) :
    ∃ v1 v2, calculateArithmeticIntensity { m with batchSize := b1 } = .ok v1 ∧
      calculateArithmeticIntensity { m with batchSize := b2 } = .ok v2 ∧
      0.1 ≤ v1 ∧ v1 ≤ v2 := by
  have hbpp_pos : 0 < (getQuantizationInfo m.quantization).bytesPerParameter :=
    bytesPerParameter_pos m.quantization
  have hbase : 0 ≤ (4 * m.sequenceLength * m.sequenceLength * d
        + 3 * m.sequenceLength * m.sequenceLength)
      / ((8 * m.sequenceLength * m.sequenceLength + 8 * m.sequenceLength * d)
          * (getQuantizationInfo m.quantization).bytesPerParameter / 2) := by
    apply div_nonneg
    · positivity
    · positivity
  exact ⟨_, _, calculateArithmeticIntensity_ok { m with batchSize := b1 } d hd hdpos.ne',
    calculateArithmeticIntensity_ok { m with batchSize := b2 } d hd hdpos.ne',
    le_max_left _ _, max_le_max le_rfl (mul_le_mul_of_nonneg_left hb hbase)⟩

/-- Claim C4 witness: the sample model at batch sizes 1 and 2. -/
theorem arithmeticIntensity_floor_and_batch_mono_witness :
    sampleModel.headDimension = some 128 ∧ (0 : ℚ) < 128 ∧ 0 < sampleModel.sequenceLength ∧
    (1 : ℚ) ≤ 2 ∧
    (∃ v1 v2, calculateArithmeticIntensity { sampleModel with batchSize := 1 } = .ok v1 ∧
      calculateArithmeticIntensity { sampleModel with batchSize := 2 } = .ok v2 ∧
      0.1 ≤ v1 ∧ v1 ≤ v2) :=
  ⟨rfl, by norm_num, by norm_num [sampleModel], by norm_num,
    arithmeticIntensity_floor_and_batch_mono sampleModel 128 rfl (by norm_num)
      (by norm_num [sampleModel]) 1 2 (by norm_num)⟩

/-- Claim C5 (amended): when the undampened base times are positive — positive prompt
tokens, parameter count and both hardware bandwidths — prefill and per-token latency
strictly increase as the efficiency percentage decreases over positive efficiencies,
and an efficiency of exactly 100% yields exactly the undampened base time. -/
theorem efficiency_derating_strict_mono (gpu : GPUSpecs) (m : ModelSpecs) (e1 e2 : ℚ)
    (hpt : 0 < m.promptTokens) (hpar : 0 < m.parameters)
    (hcb : 0 < gpu.computeBandwidth) (hmb : 0 < gpu.memoryBandwidth)
    (he1 : 0 < e1) (he12 : e1 < e2) :
    calculatePrefillTime gpu m (some { systemEfficiencyPercent := e2 })
        < calculatePrefillTime gpu m (some { systemEfficiencyPercent := e1 }) ∧
    calculateTimePerToken gpu m (some { systemEfficiencyPercent := e2 })
        < calculateTimePerToken gpu m (some { systemEfficiencyPercent := e1 }) ∧
    calculatePrefillTime gpu m (some { systemEfficiencyPercent := 100 })
        = m.promptTokens * (m.parameters * 1e9) * 2
            / (gpu.computeBandwidth * 1e12 * (getQuantizationInfo m.quantization).computeMultiplier)
            * 1000 ∧
    calculateTimePerToken gpu m (some { systemEfficiencyPercent := 100 })
        = calculateModelSizeBytes m / (gpu.memoryBandwidth * 1e9) * 1000 := by
  have hcm : 0 < (getQuantizationInfo m.quantization).computeMultiplier :=
    computeMultiplier_pos m.quantization
  have hbpp : 0 < (getQuantizationInfo m.quantization).bytesPerParameter :=
    bytesPerParameter_pos m.quantization
  have he1' : 0 < e1 / 100 := by positivity
  have he12' : e1 / 100 < e2 / 100 := by linarith
  refine ⟨?_, ?_, ?_, ?_⟩
  · simp only [calculatePrefillTime, Option.map_some', Option.getD_some]
    exact div_lt_div_of_pos_left (by positivity) he1' he12'
  · simp only [calculateTimePerToken, calculateModelSizeBytes, Option.map_some', Option.getD_some]
    exact div_lt_div_of_pos_left (by positivity) he1' he12'
  · simp only [calculatePrefillTime, Option.map_some', Option.getD_some]
    norm_num
  · simp only [calculateTimePerToken, Option.map_some', Option.getD_some]
    norm_num

/-- Claim C5 counterexample: with zero prompt tokens (and an otherwise ordinary model),
halving the efficiency from 100% to 50% leaves the prefill time unchanged at 0, so the
claimed strict monotonicity does not hold for every GPU and model. -/
theorem efficiency_derating_not_strict_at_zero_prompt :
    (50 : ℚ) < 100 ∧
    calculatePrefillTime sampleGPU { sampleModel with promptTokens := 0 }
        (some { systemEfficiencyPercent := 50 })
      = calculatePrefillTime sampleGPU { sampleModel with promptTokens := 0 }
        (some { systemEfficiencyPercent := 100 }) := by
  constructor
  · norm_num
  · simp [calculatePrefillTime]

/-- Claim C5 witness: the sample configuration at efficiencies 50% versus 80%. -/
theorem efficiency_derating_strict_mono_witness :
    (0 : ℚ) < sampleModel.promptTokens ∧ (0 : ℚ) < sampleModel.parameters ∧
    (0 : ℚ) < sampleGPU.computeBandwidth ∧ (0 : ℚ) < sampleGPU.memoryBandwidth ∧
    (0 : ℚ) < 50 ∧ (50 : ℚ) < 80 ∧
    (calculatePrefillTime sampleGPU sampleModel (some { systemEfficiencyPercent := 80 })
        < calculatePrefillTime sampleGPU sampleModel (some { systemEfficiencyPercent := 50 }) ∧
      calculateTimePerToken sampleGPU sampleModel (some { systemEfficiencyPercent := 80 })
        < calculateTimePerToken sampleGPU sampleModel (some { systemEfficiencyPercent := 50 }) ∧
      calculatePrefillTime sampleGPU sampleModel (some { systemEfficiencyPercent := 100 })
        = sampleModel.promptTokens * (sampleModel.parameters * 1e9) * 2
            / (sampleGPU.computeBandwidth * 1e12
              * (getQuantizationInfo sampleModel.quantization).computeMultiplier)
            * 1000 ∧
      calculateTimePerToken sampleGPU sampleModel (some { systemEfficiencyPercent := 100 })
        = calculateModelSizeBytes sampleModel / (sampleGPU.memoryBandwidth * 1e9) * 1000) :=
  ⟨by norm_num [sampleModel], by norm_num [sampleModel], by norm_num [sampleGPU],
    by norm_num [sampleGPU], by norm_num, by norm_num,
    efficiency_derating_strict_mono sampleGPU sampleModel 50 80 (by norm_num [sampleModel])
      (by norm_num [sampleModel]) (by norm_num [sampleGPU]) (by norm_num [sampleGPU])
      (by norm_num) (by norm_num)⟩

lemma getQuantizationInfo_unknown (q : String) (h32 : q ≠ "FP32") (h16 : q ≠ "FP16")
    (h8 : q ≠ "INT8") (h4 : q ≠ "INT4") :
    getQuantizationInfo q = getQuantizationInfo "FP16" := by
  have a32 : (("FP32" : String) == q) = false := beq_eq_false_iff_ne.mpr (Ne.symm h32)
  have a16 : (("FP16" : String) == q) = false := beq_eq_false_iff_ne.mpr (Ne.symm h16)
  have a8 : (("INT8" : String) == q) = false := beq_eq_false_iff_ne.mpr (Ne.symm h8)
  have a4 : (("INT4" : String) == q) = false := beq_eq_false_iff_ne.mpr (Ne.symm h4)
  unfold getQuantizationInfo QUANTIZATION_OPTIONS
  simp [List.find?, a32, a16, a8, a4]

lemma calculatePerformance_quant_congr (gpu : GPUSpecs) (m : ModelSpecs)
    (so : Option SystemOverhead) (q' : String)
    (h : getQuantizationInfo m.quantization = getQuantizationInfo q') :
    calculatePerformance gpu m so = calculatePerformance gpu { m with quantization := q' } so := by
  obtain ⟨p, sl, bs, pt, ot, qz, hd, nl, nh, nkv, hs, its⟩ := m
  simp only at h
  simp only [calculatePerformance, calculatePerformanceInner, calculateOpsToByteRatio,
    calculateArithmeticIntensity, checkMemoryFit, calculateModelSizeBytes,
    calculateActivationMemory, calculateKVCachePerToken, calculatePrefillTime,
    calculateTimePerToken, calculateTotalGenerationTime, calculateThroughput,
    checkPerformanceWarning, calculateSystemOverhead, h]

/-- Claim C10: a quantization string outside the four catalog names silently resolves
to the FP16 entry (2 bytes per parameter, compute multiplier 1), and every calculation
on such a model behaves exactly as with FP16 — no error is raised. -/
theorem unknown_quantization_treated_as_fp16 (q : String)
    (h32 : q ≠ "FP32") (h16 : q ≠ "FP16") (h8 : q ≠ "INT8") (h4 : q ≠ "INT4") :
    getQuantizationInfo q = getQuantizationInfo "FP16" ∧
    (getQuantizationInfo q).bytesPerParameter = 2 ∧
    (getQuantizationInfo q).computeMultiplier = 1 ∧
    ∀ (gpu : GPUSpecs) (m : ModelSpecs) (so : Option SystemOverhead), m.quantization = q →
      calculatePerformance gpu m so
        = calculatePerformance gpu { m with quantization := "FP16" } so := by
  have key := getQuantizationInfo_unknown q h32 h16 h8 h4
  have e1 : (("FP32" : String) == "FP16") = false := by decide
  have e2 : (("FP16" : String) == "FP16") = true := by decide
  refine ⟨key, by rw [key]; rfl,
    by rw [key]; norm_num [getQuantizationInfo, QUANTIZATION_OPTIONS, List.find?, e1, e2], ?_⟩
  intro gpu m so hq
  exact calculatePerformance_quant_congr gpu m so "FP16" (by rw [hq, key])

/-- Claim C10 witness: the unknown quantization name BF16 resolves to FP16 defaults. -/
theorem unknown_quantization_treated_as_fp16_witness :
    ("BF16" ≠ "FP32" ∧ "BF16" ≠ "FP16" ∧ "BF16" ≠ "INT8" ∧ "BF16" ≠ "INT4") ∧
    (getQuantizationInfo "BF16" = getQuantizationInfo "FP16" ∧
      (getQuantizationInfo "BF16").bytesPerParameter = 2 ∧
      (getQuantizationInfo "BF16").computeMultiplier = 1 ∧
      ∀ (gpu : GPUSpecs) (m : ModelSpecs) (so : Option SystemOverhead), m.quantization = "BF16" →
        calculatePerformance gpu m so
          = calculatePerformance gpu { m with quantization := "FP16" } so) :=
  ⟨⟨by decide, by decide, by decide, by decide⟩,
    unknown_quantization_treated_as_fp16 "BF16" (by decide) (by decide) (by decide) (by decide)⟩


lemma exceptErrorBind {α β : Type} (e : String) (f : α → Except String β) :
    (Except.error e : Except String α) >>= f = Except.error e := rfl

lemma exceptOkBind {α β : Type} (a : α) (f : α → Except String β) :
    (Except.ok a : Except String α) >>= f = f a := rfl

lemma calculatePerformance_error_wrap (gpu : GPUSpecs) (m : ModelSpecs)
    (so : Option SystemOverhead) (e : String)
    (h : calculatePerformanceInner gpu m so = .error e) :
    calculatePerformance gpu m so = .error ("Performance calculation failed: " ++ e) := by
  simp [calculatePerformance, h]

lemma calculatePerformanceInner_error_arith (gpu : GPUSpecs) (m : ModelSpecs)
    (so : Option SystemOverhead) (e : String)
    (h : calculateArithmeticIntensity m = .error e) :
    calculatePerformanceInner gpu m so = .error e := by
  simp [calculatePerformanceInner, h, exceptErrorBind]

lemma calculatePerformanceInner_error_memory (gpu : GPUSpecs) (m : ModelSpecs)
    (so : Option SystemOverhead) (v : ℚ) (e : String)
    (ha : calculateArithmeticIntensity m = .ok v) (h : checkMemoryFit gpu m = .error e) :
    calculatePerformanceInner gpu m so = .error e := by
  simp [calculatePerformanceInner, ha, h, exceptOkBind, exceptErrorBind]

lemma checkMemoryFit_error_activation (gpu : GPUSpecs) (m : ModelSpecs) (e : String)
    (h : calculateActivationMemory m = .error e) :
    checkMemoryFit gpu m = .error e := by
  simp [checkMemoryFit, h, exceptErrorBind]

lemma checkMemoryFit_error_kv (gpu : GPUSpecs) (m : ModelSpecs) (a : ℚ) (e : String)
    (ha : calculateActivationMemory m = .ok a) (h : calculateKVCachePerToken m = .error e) :
    checkMemoryFit gpu m = .error e := by
  simp [checkMemoryFit, ha, h, exceptOkBind, exceptErrorBind]

/-- Claim C1: whenever a required architecture field (`nLayers`, `headDimension`,
`nKvHeads`/`nHeads`, `hiddenSize`, `intermediateSize`) is absent or zero,
`calculatePerformance` fails as a whole: it returns the error wrapped with the
"Performance calculation failed" context, whose inner message names a missing field,
and no partial result record is produced. -/
theorem calculatePerformance_missing_arch_fails (gpu : GPUSpecs) (m : ModelSpecs)
    (so : Option SystemOverhead)
    (hmiss : isFalsy m.nLayers = true ∨ isFalsy m.headDimension = true ∨
      (isFalsy m.nKvHeads = true ∧ isFalsy m.nHeads = true) ∨
      isFalsy m.hiddenSize = true ∨ isFalsy m.intermediateSize = true) :
    ∃ inner, calculatePerformance gpu m so = .error ("Performance calculation failed: " ++ inner)
      ∧ namesMissingField m inner := by
  by_cases h1 : isFalsy m.headDimension = true
  · have herr : calculateArithmeticIntensity m = .error
        "Model architecture missing: headDimension is required for arithmetic intensity calculation" := by
      simp [calculateArithmeticIntensity, h1]
    refine ⟨_, calculatePerformance_error_wrap _ _ _ _
      (calculatePerformanceInner_error_arith _ _ _ _ herr), ?_⟩
    exact Or.inl ⟨h1, rfl⟩
  · have h1' : isFalsy m.headDimension = false := by simpa using h1
    obtain ⟨v, hv⟩ : ∃ v, calculateArithmeticIntensity m = .ok v := by
      simp [calculateArithmeticIntensity, h1']
    by_cases h2 : isFalsy m.hiddenSize = true
    · have herr : calculateActivationMemory m = .error
          "Model architecture missing: hiddenSize is required for activation memory calculation" := by
        simp [calculateActivationMemory, h2]
      refine ⟨_, calculatePerformance_error_wrap _ _ _ _
        (calculatePerformanceInner_error_memory _ _ _ v _ hv
          (checkMemoryFit_error_activation _ _ _ herr)), ?_⟩
      exact Or.inr (Or.inl ⟨h2, rfl⟩)
    · have h2' : isFalsy m.hiddenSize = false := by simpa using h2
      by_cases h3 : isFalsy m.intermediateSize = true
      · have herr : calculateActivationMemory m = .error
            "Model architecture missing: intermediateSize is required for activation memory calculation" := by
          simp [calculateActivationMemory, h2', h3]
        refine ⟨_, calculatePerformance_error_wrap _ _ _ _
          (calculatePerformanceInner_error_memory _ _ _ v _ hv
            (checkMemoryFit_error_activation _ _ _ herr)), ?_⟩
        exact Or.inr (Or.inr (Or.inl ⟨h3, rfl⟩))
      · have h3' : isFalsy m.intermediateSize = false := by simpa using h3
        obtain ⟨a, ha⟩ : ∃ a, calculateActivationMemory m = .ok a := by
          simp [calculateActivationMemory, h2', h3']
        by_cases h4 : isFalsy m.nLayers = true
        · have herr : calculateKVCachePerToken m = .error
              "Model architecture missing: nLayers is required for KV cache calculation" := by
            simp [calculateKVCachePerToken, h4]
          refine ⟨_, calculatePerformance_error_wrap _ _ _ _
            (calculatePerformanceInner_error_memory _ _ _ v _ hv
              (checkMemoryFit_error_kv _ _ a _ ha herr)), ?_⟩
          exact Or.inr (Or.inr (Or.inr (Or.inl ⟨h4, rfl⟩)))
        · have h4' : isFalsy m.nLayers = false := by simpa using h4
          have h5 : isFalsy m.nKvHeads = true ∧ isFalsy m.nHeads = true := by
            rcases hmiss with h | h | h | h | h
            · rw [h4'] at h; exact Bool.noConfusion h
            · rw [h1'] at h; exact Bool.noConfusion h
            · exact h
            · rw [h2'] at h; exact Bool.noConfusion h
            · rw [h3'] at h; exact Bool.noConfusion h
          have herr : calculateKVCachePerToken m = .error
              "Model architecture missing: nKvHeads or nHeads is required for KV cache calculation" := by
            simp [calculateKVCachePerToken, h4', h1', h5.1, h5.2]
          refine ⟨_, calculatePerformance_error_wrap _ _ _ _
            (calculatePerformanceInner_error_memory _ _ _ v _ hv
              (checkMemoryFit_error_kv _ _ a _ ha herr)), ?_⟩
          exact Or.inr (Or.inr (Or.inr (Or.inr ⟨h5.1, h5.2, rfl⟩)))

/-- Claim C1 witness: the sample model with its head dimension removed. -/
theorem calculatePerformance_missing_arch_fails_witness :
    (isFalsy ({ sampleModel with headDimension := none } : ModelSpecs).nLayers = true ∨
      isFalsy ({ sampleModel with headDimension := none } : ModelSpecs).headDimension = true ∨
      (isFalsy ({ sampleModel with headDimension := none } : ModelSpecs).nKvHeads = true ∧
        isFalsy ({ sampleModel with headDimension := none } : ModelSpecs).nHeads = true) ∨
      isFalsy ({ sampleModel with headDimension := none } : ModelSpecs).hiddenSize = true ∨
      isFalsy ({ sampleModel with headDimension := none } : ModelSpecs).intermediateSize = true) ∧
    ∃ inner, calculatePerformance sampleGPU { sampleModel with headDimension := none } none
        = .error ("Performance calculation failed: " ++ inner)
      ∧ namesMissingField { sampleModel with headDimension := none } inner :=
  ⟨Or.inr (Or.inl (by decide)),
    calculatePerformance_missing_arch_fails sampleGPU { sampleModel with headDimension := none }
      none (Or.inr (Or.inl (by decide)))⟩


/-- Claim C2: on every successful memory check exactly one warning branch applies, in
precedence order: total overflow yields the overflow message with the shortfall (never
the high or moderate message), else utilization above 90% the high-usage warning, else
above 80% the moderate warning, else no warning and no message. -/
theorem checkMemoryFit_warning_precedence (gpu : GPUSpecs) (m : ModelSpecs)
    (h : isOkE (checkMemoryFit gpu m) = true) :
    ∃ r, checkMemoryFit gpu m = .ok r ∧
      (r.totalMemoryUsedGB > gpu.memorySize →
        r.hasMemoryWarning = true ∧
        r.memoryWarningMessage = some ("Model requires " ++ toFixed1 r.totalMemoryUsedGB
          ++ "GB but GPU only has " ++ ratStr gpu.memorySize ++ "GB. Shortfall: "
          ++ toFixed1 (r.totalMemoryUsedGB - gpu.memorySize)
          ++ "GB. Consider using a smaller model, better quantization, or a GPU with more memory.")) ∧
      (¬ r.totalMemoryUsedGB > gpu.memorySize →
        r.totalMemoryUsedGB / gpu.memorySize * 100 > 90 →
        r.hasMemoryWarning = true ∧
        r.memoryWarningMessage = some ("High memory usage ("
          ++ toFixed1 (r.totalMemoryUsedGB / gpu.memorySize * 100)
          ++ "%). May cause performance issues or OOM errors. Consider reducing batch size or sequence length.")) ∧
      (¬ r.totalMemoryUsedGB > gpu.memorySize →
        ¬ r.totalMemoryUsedGB / gpu.memorySize * 100 > 90 →
        r.totalMemoryUsedGB / gpu.memorySize * 100 > 80 →
        r.hasMemoryWarning = true ∧
        r.memoryWarningMessage = some ("Moderate memory usage ("
          ++ toFixed1 (r.totalMemoryUsedGB / gpu.memorySize * 100)
          ++ "%). Monitor for potential memory pressure.")) ∧
      (¬ r.totalMemoryUsedGB > gpu.memorySize →
        ¬ r.totalMemoryUsedGB / gpu.memorySize * 100 > 90 →
        ¬ r.totalMemoryUsedGB / gpu.memorySize * 100 > 80 →
        r.hasMemoryWarning = false ∧ r.memoryWarningMessage = none) := by
  cases hact : calculateActivationMemory m with
  | error e => rw [checkMemoryFit_error_activation gpu m e hact] at h; simp [isOkE] at h
  | ok a =>
    cases hkv : calculateKVCachePerToken m with
    | error e => rw [checkMemoryFit_error_kv gpu m a e hact hkv] at h; simp [isOkE] at h
    | ok k =>
      simp only [checkMemoryFit, hact, hkv, exceptOkBind]
      refine ⟨_, rfl, ?_, ?_, ?_, ?_⟩
      · intro hc1
        dsimp only at hc1 ⊢
        simp [hc1]
      · intro hc1 hc2
        dsimp only at hc1 hc2 ⊢
        simp [hc1, hc2]
      · intro hc1 hc2 hc3
        dsimp only at hc1 hc2 hc3 ⊢
        simp [hc1, hc2, hc3]
      · intro hc1 hc2 hc3
        dsimp only at hc1 hc2 hc3 ⊢
        simp [hc1, hc2, hc3]

/-- Claim C2 witness: the warning-precedence theorem applied to the sample
configuration, whose memory check succeeds. -/
theorem checkMemoryFit_warning_precedence_witness :
    isOkE (checkMemoryFit sampleGPU sampleModel) = true ∧
    (∃ r, checkMemoryFit sampleGPU sampleModel = .ok r ∧
      (r.totalMemoryUsedGB > sampleGPU.memorySize →
        r.hasMemoryWarning = true ∧
        r.memoryWarningMessage = some ("Model requires " ++ toFixed1 r.totalMemoryUsedGB
          ++ "GB but GPU only has " ++ ratStr sampleGPU.memorySize ++ "GB. Shortfall: "
          ++ toFixed1 (r.totalMemoryUsedGB - sampleGPU.memorySize)
          ++ "GB. Consider using a smaller model, better quantization, or a GPU with more memory.")) ∧
      (¬ r.totalMemoryUsedGB > sampleGPU.memorySize →
        r.totalMemoryUsedGB / sampleGPU.memorySize * 100 > 90 →
        r.hasMemoryWarning = true ∧
        r.memoryWarningMessage = some ("High memory usage ("
          ++ toFixed1 (r.totalMemoryUsedGB / sampleGPU.memorySize * 100)
          ++ "%). May cause performance issues or OOM errors. Consider reducing batch size or sequence length.")) ∧
      (¬ r.totalMemoryUsedGB > sampleGPU.memorySize →
        ¬ r.totalMemoryUsedGB / sampleGPU.memorySize * 100 > 90 →
        r.totalMemoryUsedGB / sampleGPU.memorySize * 100 > 80 →
        r.hasMemoryWarning = true ∧
        r.memoryWarningMessage = some ("Moderate memory usage ("
          ++ toFixed1 (r.totalMemoryUsedGB / sampleGPU.memorySize * 100)
          ++ "%). Monitor for potential memory pressure.")) ∧
      (¬ r.totalMemoryUsedGB > sampleGPU.memorySize →
        ¬ r.totalMemoryUsedGB / sampleGPU.memorySize * 100 > 90 →
        ¬ r.totalMemoryUsedGB / sampleGPU.memorySize * 100 > 80 →
        r.hasMemoryWarning = false ∧ r.memoryWarningMessage = none)) :=
  ⟨by decide, checkMemoryFit_warning_precedence sampleGPU sampleModel (by decide)⟩

/-- Claim C6: on every successful memory check, free KV memory is the capacity minus
model size, the fixed 1 GB overhead and activation memory (clamped at 0); the maximum
KV-cache token count is the floor of free memory over the per-token size (0 when that
size is 0); and the maximum batch size is the floor of the token count over the
sequence length (0 when the sequence length is 0). -/
theorem checkMemoryFit_capacity_limits (gpu : GPUSpecs) (m : ModelSpecs)
    (h : isOkE (checkMemoryFit gpu m) = true) :
    ∃ r, checkMemoryFit gpu m = .ok r ∧
      r.systemOverheadGB = 1 ∧
      r.freeMemoryForKVCacheGB
        = max 0 (gpu.memorySize - (r.modelSizeGB + 1 + r.activationMemoryGB)) ∧
      (0 < r.kvCachePerTokenGB →
        r.maxKVCacheTokens = Rat.floor (r.freeMemoryForKVCacheGB / r.kvCachePerTokenGB)) ∧
      (r.kvCachePerTokenGB = 0 → r.maxKVCacheTokens = 0) ∧
      (0 < m.promptTokens + m.outputTokens →
        r.maxBatchSize = Rat.floor ((r.maxKVCacheTokens : ℚ) / (m.promptTokens + m.outputTokens))) ∧
      (m.promptTokens + m.outputTokens = 0 → r.maxBatchSize = 0) := by
  cases hact : calculateActivationMemory m with
  | error e => rw [checkMemoryFit_error_activation gpu m e hact] at h; simp [isOkE] at h
  | ok a =>
    cases hkv : calculateKVCachePerToken m with
    | error e => rw [checkMemoryFit_error_kv gpu m a e hact hkv] at h; simp [isOkE] at h
    | ok k =>
      simp only [checkMemoryFit, hact, hkv, exceptOkBind]
      refine ⟨_, rfl, rfl, ?_, ?_, ?_, ?_, ?_⟩
      · dsimp only
        simp [calculateSystemOverhead]
      · intro hk
        dsimp only at hk ⊢
        simp [hk]
      · intro hk
        dsimp only at hk ⊢
        simp [hk]
      · intro hseq
        dsimp only at hseq ⊢
        simp [hseq]
      · intro hseq
        dsimp only at hseq ⊢
        simp [hseq]

/-- Claim C6 witness: the capacity-limit theorem applied to the sample configuration. -/
theorem checkMemoryFit_capacity_limits_witness :
    isOkE (checkMemoryFit sampleGPU sampleModel) = true ∧
    (∃ r, checkMemoryFit sampleGPU sampleModel = .ok r ∧
      r.systemOverheadGB = 1 ∧
      r.freeMemoryForKVCacheGB
        = max 0 (sampleGPU.memorySize - (r.modelSizeGB + 1 + r.activationMemoryGB)) ∧
      (0 < r.kvCachePerTokenGB →
        r.maxKVCacheTokens = Rat.floor (r.freeMemoryForKVCacheGB / r.kvCachePerTokenGB)) ∧
      (r.kvCachePerTokenGB = 0 → r.maxKVCacheTokens = 0) ∧
      (0 < sampleModel.promptTokens + sampleModel.outputTokens →
        r.maxBatchSize = Rat.floor ((r.maxKVCacheTokens : ℚ)
          / (sampleModel.promptTokens + sampleModel.outputTokens))) ∧
      (sampleModel.promptTokens + sampleModel.outputTokens = 0 → r.maxBatchSize = 0)) :=
  ⟨by decide, checkMemoryFit_capacity_limits sampleGPU sampleModel (by decide)⟩

/-- Claim C8: eligibility is monotone in the compliance requirement set — a component
passing the filter for a requirements vector still passes after the compliance set is
shrunk to any subset, all other requirement fields unchanged; equivalently, adding a
compliance requirement can only remove components from the eligible set. -/
theorem eligibility_monotone_in_compliance (catalog : List StackComponent)
    (R : ProjectRequirements) (sub : List String)
    (hsub : ∀ x ∈ sub, x ∈ R.complianceRequirements)
    (c : StackComponent) (hc : c ∈ filterComponentsByRequirements catalog R) :
    c ∈ filterComponentsByRequirements catalog { R with complianceRequirements := sub } := by
  rw [filterComponentsByRequirements, List.mem_filter] at hc ⊢
  refine ⟨hc.1, ?_⟩
  have helig := hc.2
  simp only [eligibleComponent, Bool.and_eq_true, List.all_eq_true] at helig ⊢
  obtain ⟨⟨hrest, hcomp⟩, hsec⟩ := helig
  exact ⟨⟨hrest, fun x hx => hcomp x (hsub x hx)⟩, hsec⟩



/-- Claim C8 witness: a concrete component eligible under a two-element compliance set
remains eligible when the set shrinks to one element. -/
theorem eligibility_monotone_in_compliance_witness :
    (∀ x ∈ (["gdpr"] : List String), x ∈ sampleRequirements.complianceRequirements) ∧
    sampleComponent ∈ filterComponentsByRequirements [sampleComponent] sampleRequirements ∧
    sampleComponent ∈ filterComponentsByRequirements [sampleComponent]
      { sampleRequirements with complianceRequirements := ["gdpr"] } :=
  ⟨by decide, by decide,
    eligibility_monotone_in_compliance [sampleComponent] sampleRequirements ["gdpr"]
      (by decide) sampleComponent (by decide)⟩
